import Mathlib

/-!
Shallow embedding of the repository modern-python-dev-setup.

The repository has three pieces with observable behavior:
  * `hooks/post_gen_project.py` — the post-generation hook: it runs
    `subprocess.check_call(["pre-commit", "install", "--install-hooks"])`,
    prints a success line on success, and on `CalledProcessError` prints a
    failure line and calls `sys.exit(1)`.  Any other exception (notably
    `FileNotFoundError` when the tool is not on the search path) propagates
    uncaught.
  * `src/{{cookiecutter.project_slug}}/main.py` — `greet`.
  * `src/{{cookiecutter.project_slug}}/my_cli.py` — the Typer command `hello`,
    which echoes `greet(name)`.

The external world is modelled by the outcome of the single subprocess
invocation (`CmdResult`); `main` is a pure function of that outcome,
returning the trace of observable events and how the process terminates.
-/

namespace DevSetup

/-- greet from `main.py`: `return f"Hello, {name}!"`. -/
def greet (name : String) : String := "Hello, " ++ name ++ "!"

/-- typer.echo writes exactly its message as one stdout line. -/
def echo (message : String) : List String := [message]

/-- hello from `my_cli.py`: `typer.echo(greet(name))`; its value is the list
of stdout lines the command emits. -/
def hello (name : String) : List String := echo (greet name)

/-- Outcome of attempting to invoke the external command: either the tool ran
and terminated with an exit status, or the invocation itself failed (the tool
could not be found/executed), carrying the OS error text. -/
inductive CmdResult where
  | exited (code : Nat) : CmdResult
  | notInvocable (strerror : String) : CmdResult
deriving DecidableEq

/-- The Python exceptions relevant to the hook. -/
inductive PyExc where
  | calledProcessError (returncode : Nat) (cmd : List String) : PyExc
  | fileNotFoundError (strerror : String) : PyExc
deriving DecidableEq

/-- subprocess.check_call: returns normally on exit status 0, raises
`CalledProcessError` on a non-zero exit status, and raises
`FileNotFoundError` when the command cannot be invoked at all. -/
def check_call (cmd : List String) (r : CmdResult) : Except PyExc Unit :=
  match r with
  | .exited 0 => .ok ()
  | .exited c => .error (.calledProcessError c cmd)
  | .notInvocable s => .error (.fileNotFoundError s)

/-- Observable events of a run: subprocess invocations and stdout lines. -/
inductive PyEvent where
  | invoke (cmd : List String) : PyEvent
  | printLine (s : String) : PyEvent
deriving DecidableEq

/-- How the hook process terminates: falling off the end of `main` (the
interpreter then exits 0), `sys.exit(code)`, or an unhandled exception (the
interpreter prints a traceback to stderr and exits 1). -/
inductive Termination where
  | normal : Termination
  | sysExit (code : Nat) : Termination
  | unhandled (exc : PyExc) : Termination
deriving DecidableEq

/-- Trace of one run of the hook: the events it produced and how it ended. -/
structure RunResult where
  events : List PyEvent
  term : Termination
deriving DecidableEq

/-- CPython maps the three terminations to process exit statuses: normal
return from the script gives 0, `sys.exit(code)` gives `code`, and an
unhandled exception makes the interpreter exit with status 1. -/
def Termination.exitCode : Termination → Nat
  | .normal => 0
  | .sysExit c => c
  | .unhandled _ => 1

/-- Single-quote character (codepoint 39), used by Python repr of strings. -/
def sq : String := String.singleton (Char.ofNat 39)

/-- Python `"%s" % list_of_strings`: bracketed, comma-separated, each element
in single quotes. -/
def pyListStr (xs : List String) : String :=
  "[" ++ String.intercalate ", " (xs.map fun s => sq ++ s ++ sq) ++ "]"

/-- str() of the exceptions: `CalledProcessError.__str__` is
`"Command '%s' returned non-zero exit status %d." % (cmd, returncode)`
(for a non-negative return code); `FileNotFoundError` carries its OS text. -/
def strPyExc : PyExc → String
  | .calledProcessError c cmd =>
      "Command " ++ sq ++ pyListStr cmd ++ sq ++
        " returned non-zero exit status " ++ toString c ++ "."
  | .fileNotFoundError s => s

/-- The exact argument list of the subprocess call in the hook. -/
def hookCmd : List String := ["pre-commit", "install", "--install-hooks"]

/-- The success line printed by the hook. -/
def successMsg : String := "✅ pre-commit hooks installed"

/-- The fixed first argument of the failure `print`; `print(a, e)` then joins
with a single space, so every failure line starts with this marker. -/
def failHeader : String := "❌ pre-commit install failed:"

/-- main from `hooks/post_gen_project.py`, as a function of the outcome of
the one subprocess invocation.  The `try` block invokes the command and, if
`check_call` returns, prints the success line; the `except` clause catches
only `CalledProcessError`, printing the failure line and calling
`sys.exit(1)`; a `FileNotFoundError` propagates uncaught. -/
def main (r : CmdResult) : RunResult :=
  match check_call hookCmd r with
  | .ok () =>
      ⟨[.invoke hookCmd, .printLine successMsg], .normal⟩
  | .error (.calledProcessError c cmd) =>
      ⟨[.invoke hookCmd,
        .printLine (failHeader ++ (" " ++ strPyExc (.calledProcessError c cmd)))],
       .sysExit 1⟩
  | .error (.fileNotFoundError s) =>
      ⟨[.invoke hookCmd], .unhandled (.fileNotFoundError s)⟩

/-- The stdout lines of a run, in order. -/
def printedLines (res : RunResult) : List String :=
  res.events.filterMap fun e =>
    match e with
    | .printLine s => some s
    | _ => none

/-- Whether an event is a subprocess invocation. -/
def PyEvent.isInvoke : PyEvent → Bool
  | .invoke _ => true
  | _ => false

/-- The subprocess invocations of a run, in order. -/
def invokeEvents (res : RunResult) : List PyEvent :=
  res.events.filter fun e => e.isInvoke

/-- A stdout line is failure-marked when it starts with the failure header. -/
def failureMarked (s : String) : Prop := ∃ rest, s = failHeader ++ rest

/-- The success outcome of the spec: the success line was printed and the
process exited with status 0. -/
def successOutcome (res : RunResult) : Prop :=
  successMsg ∈ printedLines res ∧ res.term.exitCode = 0

/-- The failure outcome of the spec: some failure-marked line was printed and
the process exited with a non-zero status. -/
def failureOutcome (res : RunResult) : Prop :=
  (∃ s ∈ printedLines res, failureMarked s) ∧ res.term.exitCode ≠ 0

/-! Evaluation lemmas for the three shapes of `CmdResult`. -/

theorem main_exited_zero :
    main (.exited 0) = ⟨[.invoke hookCmd, .printLine successMsg], .normal⟩ := rfl

theorem main_exited_succ (k : Nat) :
    main (.exited (k + 1)) =
      ⟨[.invoke hookCmd,
        .printLine (failHeader ++
          (" " ++ strPyExc (.calledProcessError (k + 1) hookCmd)))],
       .sysExit 1⟩ := rfl

theorem main_notInvocable (s : String) :
    main (.notInvocable s) =
      ⟨[.invoke hookCmd], .unhandled (.fileNotFoundError s)⟩ := rfl

theorem printedLines_zero : printedLines (main (.exited 0)) = [successMsg] := rfl

theorem printedLines_succ (k : Nat) :
    printedLines (main (.exited (k + 1))) =
      [failHeader ++ (" " ++ strPyExc (.calledProcessError (k + 1) hookCmd))] := rfl

theorem printedLines_notInvocable (s : String) :
    printedLines (main (.notInvocable s)) = [] := rfl

theorem exitCode_zero : (main (.exited 0)).term.exitCode = 0 := rfl

theorem exitCode_succ (k : Nat) : (main (.exited (k + 1))).term.exitCode = 1 := rfl

theorem exitCode_notInvocable (s : String) :
    (main (.notInvocable s)).term.exitCode = 1 := rfl

/-- The success line never starts with the failure header: the two strings
have equal length, so a header-prefixed line of that length would have to
equal the header itself, and the two literals differ. -/
theorem successMsg_not_failureMarked (x : String) : successMsg ≠ failHeader ++ x := by
  intro h
  have h2 := congrArg String.length h
  rw [String.length_append] at h2
  have e1 : successMsg.length = 28 := by decide
  have e2 : failHeader.length = 28 := by decide
  rw [e1, e2] at h2
  have h3 : x.length = 0 := by omega
  have h4 : x = "" := by
    cases x with
    | mk l =>
      cases l with
      | nil => rfl
      | cons a l => simp [String.length] at h3
  subst h4
  rw [String.append_empty] at h
  exact absurd h (by decide)

/-! Claim theorems. -/

/-- C1, counterexample: when the external tool is not invocable (here with OS
text "No such file or directory"), neither of the two spec outcomes is
produced — no success line with exit 0, and no failure-marked line either —
so the claimed dichotomy is not exhaustive over all external-command
results. -/
theorem C1_counterexample :
    ¬ (successOutcome (main (.notInvocable "No such file or directory")) ∨
       failureOutcome (main (.notInvocable "No such file or directory"))) := by
  rintro (⟨hmem, -⟩ | ⟨⟨s, hs, -⟩, -⟩)
  · rw [printedLines_notInvocable] at hmem
    exact List.not_mem_nil _ hmem
  · rw [printedLines_notInvocable] at hs
    exact List.not_mem_nil _ hs

/-- C1, amended: for every outcome in which the external command was invoked
and terminated with some exit status, exactly one of {success message + exit
0} and {failure message + non-zero exit} is produced; when the command is not
invocable, neither outcome is produced and the process still exits with a
non-zero status (via an unhandled exception). -/
theorem C1_outcomes_dichotomy :
    (∀ c : Nat,
      (successOutcome (main (.exited c)) ∧ ¬ failureOutcome (main (.exited c))) ∨
      (failureOutcome (main (.exited c)) ∧ ¬ successOutcome (main (.exited c)))) ∧
    (∀ s : String,
      ¬ successOutcome (main (.notInvocable s)) ∧
      ¬ failureOutcome (main (.notInvocable s)) ∧
      (main (.notInvocable s)).term.exitCode ≠ 0) := by
  constructor
  · intro c
    match c with
    | 0 =>
      left
      refine ⟨⟨?_, exitCode_zero⟩, ?_⟩
      · rw [printedLines_zero]; exact List.mem_singleton.mpr rfl
      · rintro ⟨-, hne⟩
        exact hne exitCode_zero
    | (k + 1) =>
      right
      refine ⟨⟨⟨_, ?_, ⟨" " ++ strPyExc (.calledProcessError (k + 1) hookCmd), rfl⟩⟩, ?_⟩, ?_⟩
      · rw [printedLines_succ]; exact List.mem_singleton.mpr rfl
      · rw [exitCode_succ]; exact Nat.one_ne_zero
      · rintro ⟨-, h0⟩
        rw [exitCode_succ] at h0
        exact Nat.one_ne_zero h0
  · intro s
    refine ⟨?_, ?_, ?_⟩
    · rintro ⟨hmem, -⟩
      rw [printedLines_notInvocable] at hmem
      exact List.not_mem_nil _ hmem
    · rintro ⟨⟨t, ht, -⟩, -⟩
      rw [printedLines_notInvocable] at ht
      exact List.not_mem_nil _ ht
    · rw [exitCode_notInvocable]; exact Nat.one_ne_zero

/-- C2, counterexample: with the tool absent from the search path (OS text
"No such file or directory"), the hook prints no failure-marked line at all
and terminates via the uncaught `FileNotFoundError` — an unhandled fault —
contrary to the claim that this case behaves like a non-zero exit of the
tool. -/
theorem C2_counterexample :
    ¬ (∃ s ∈ printedLines (main (.notInvocable "No such file or directory")),
        failureMarked s) ∧
    (main (.notInvocable "No such file or directory")).term =
      .unhandled (.fileNotFoundError "No such file or directory") := by
  constructor
  · rintro ⟨s, hs, -⟩
    rw [printedLines_notInvocable] at hs
    exact List.not_mem_nil _ hs
  · rfl

/-- C2, amended: when the external tool is absent from the search path, the
`FileNotFoundError` raised by the invocation propagates uncaught: the hook
prints nothing, the run terminates as an unhandled exception carrying that
error, and the interpreter exits with status 1 (non-zero, but not via the
handled failure path). -/
theorem C2_missing_tool_unhandled (s : String) :
    printedLines (main (.notInvocable s)) = [] ∧
    (main (.notInvocable s)).term = .unhandled (.fileNotFoundError s) ∧
    (main (.notInvocable s)).term.exitCode = 1 :=
  ⟨rfl, rfl, rfl⟩

/-- C3: whenever the external tool terminates with a non-zero status `c`, the
hook prints exactly one line, consisting of the failure marker followed by
the string of the `CalledProcessError` that carries `c` and the invoked
command (the underlying error detail), and the process exits with the
non-zero status 1. -/
theorem C3_failure_path (c : Nat) (h : c ≠ 0) :
    printedLines (main (.exited c)) =
      [failHeader ++ (" " ++ strPyExc (.calledProcessError c hookCmd))] ∧
    failureMarked (failHeader ++ (" " ++ strPyExc (.calledProcessError c hookCmd))) ∧
    (main (.exited c)).term.exitCode ≠ 0 := by
  match c with
  | 0 => exact absurd rfl h
  | (k + 1) =>
    refine ⟨printedLines_succ k, ⟨_, rfl⟩, ?_⟩
    rw [exitCode_succ]; exact Nat.one_ne_zero

/-- C3 witness at the concrete failing status 1. -/
theorem C3_witness :
    printedLines (main (.exited 1)) =
      [failHeader ++ (" " ++ strPyExc (.calledProcessError 1 hookCmd))] ∧
    failureMarked (failHeader ++ (" " ++ strPyExc (.calledProcessError 1 hookCmd))) ∧
    (main (.exited 1)).term.exitCode ≠ 0 :=
  C3_failure_path 1 (by decide)

/-- C4: when the external tool terminates with status 0, the hook prints
exactly the one success line, `main` returns normally, and the process exits
with status 0. -/
theorem C4_success_path :
    printedLines (main (.exited 0)) = [successMsg] ∧
    (main (.exited 0)).term = .normal ∧
    (main (.exited 0)).term.exitCode = 0 :=
  ⟨rfl, rfl, rfl⟩

/-- C5: on every run in which the installation call failed — a non-zero exit
status or the tool not being invocable — the process exit status is non-zero
and the success line is not among the printed lines. -/
theorem C5_no_silent_failure (r : CmdResult) (h : r ≠ .exited 0) :
    (main r).term.exitCode ≠ 0 ∧ successMsg ∉ printedLines (main r) := by
  match r with
  | .exited 0 => exact absurd rfl h
  | .exited (k + 1) =>
    refine ⟨?_, ?_⟩
    · rw [exitCode_succ]; exact Nat.one_ne_zero
    · rw [printedLines_succ]
      intro hmem
      exact successMsg_not_failureMarked _ (List.mem_singleton.mp hmem)
  | .notInvocable s =>
    refine ⟨?_, ?_⟩
    · rw [exitCode_notInvocable]; exact Nat.one_ne_zero
    · rw [printedLines_notInvocable]
      exact List.not_mem_nil _

/-- C5 witness at the concrete outcome "tool missing". -/
theorem C5_witness :
    (CmdResult.notInvocable "No such file or directory" ≠ .exited 0) ∧
    ((main (.notInvocable "No such file or directory")).term.exitCode ≠ 0 ∧
     successMsg ∉ printedLines (main (.notInvocable "No such file or directory"))) :=
  ⟨by decide, C5_no_silent_failure _ (by decide)⟩

/-- C6: the process exit status is exactly 0 when the tool exited 0, and
exactly 1 on every failing outcome, whether the tool exited non-zero (via
`sys.exit(1)`) or was not invocable at all (via the unhandled exception,
which makes the interpreter exit 1). -/
theorem C6_exit_codes :
    (main (.exited 0)).term.exitCode = 0 ∧
    ∀ r : CmdResult, r ≠ .exited 0 → (main r).term.exitCode = 1 := by
  refine ⟨exitCode_zero, ?_⟩
  intro r h
  match r with
  | .exited 0 => exact absurd rfl h
  | .exited (k + 1) => exact exitCode_succ k
  | .notInvocable s => exact exitCode_notInvocable s

/-- C6 witness at the two concrete failing outcomes: a non-zero tool exit and
a missing tool. -/
theorem C6_witness :
    (main (.exited 0)).term.exitCode = 0 ∧
    (main (.exited 2)).term.exitCode = 1 ∧
    (main (.notInvocable "No such file or directory")).term.exitCode = 1 :=
  ⟨C6_exit_codes.1,
   C6_exit_codes.2 (.exited 2) (by decide),
   C6_exit_codes.2 (.notInvocable "No such file or directory") (by decide)⟩

/-- C7: on every run, whatever the outcome, the trace contains exactly one
subprocess invocation, and it is `pre-commit install --install-hooks`; in
particular no failing outcome is followed by a second attempt. -/
theorem C7_single_invocation (r : CmdResult) :
    invokeEvents (main r) = [PyEvent.invoke ["pre-commit", "install", "--install-hooks"]] := by
  match r with
  | .exited 0 => rfl
  | .exited (k + 1) => rfl
  | .notInvocable s => rfl

/-- C8: greet returns the greeting prefix, the name, and the exclamation
mark, and in particular maps "Developer" to "Hello, Developer!" (the check in
`tests/test_main.py`). -/
theorem C8_greet :
    (∀ name : String, greet name = "Hello, " ++ name ++ "!") ∧
    greet "Developer" = "Hello, Developer!" :=
  ⟨fun _ => rfl, rfl⟩

/-- C9: the CLI command hello is a pure pass-through: its emitted output is
exactly the one line returned by greet, with no transformation. -/
theorem C9_cli_passthrough (name : String) : hello name = [greet name] := rfl

/-- C10: the hook is deterministic in the external command's outcome: two
runs whose subprocess invocations produce the same result print the same
lines and terminate with the same process exit status. -/
theorem C10_deterministic (r₁ r₂ : CmdResult) (h : r₁ = r₂) :
    printedLines (main r₁) = printedLines (main r₂) ∧
    (main r₁).term.exitCode = (main r₂).term.exitCode := by
  subst h
  exact ⟨rfl, rfl⟩

/-- C10 witness at the concrete outcome "tool exited 0". -/
theorem C10_witness :
    printedLines (main (.exited 0)) = printedLines (main (.exited 0)) ∧
    (main (.exited 0)).term.exitCode = (main (.exited 0)).term.exitCode :=
  C10_deterministic (.exited 0) (.exited 0) rfl

end DevSetup
